import Mathlib

/-!
# Verification of the subscription / progress logic of the YouTube downloader bot

Shallow embedding of `src/main.py`.  The subscriptions JSON file is modelled as
an in-memory value of type `Subscriptions` threaded explicitly through the
functions (`load_subscriptions` / `save_subscriptions` become state passing);
Python `datetime` values are modelled as a proleptic-Gregorian day ordinal plus
microseconds within the day; dates written to and read from the store are kept
as strings, with `strftime`/`strptime` for the `"%Y-%m-%d"` format implemented
below.  Python code that can raise an exception is modelled with `Option`
(`none` = an exception escapes).
-/

/-- Proleptic Gregorian calendar date, as Python's `datetime.date`
(`year` is an `Int`; Python restricts it to `1..9999`, which the claims
never leave). -/
structure Date where
  year : Int
  month : Nat
  day : Nat
deriving DecidableEq, Repr

/-- Gregorian leap-year rule (as Python's `calendar.isleap`). -/
def isLeap (y : Int) : Bool :=
  (y % 4 == 0 && y % 100 != 0) || y % 400 == 0

/-- Number of days in a month of a given year. -/
def daysInMonth (y : Int) (m : Nat) : Nat :=
  if m = 2 then (if isLeap y then 29 else 28)
  else if m = 4 ∨ m = 6 ∨ m = 9 ∨ m = 11 then 30
  else 31

/-- Day ordinal of a date (days since 1970-01-01, proleptic Gregorian;
the standard civil-calendar algorithm).  This is the order-isomorphic
counterpart of Python's `date.toordinal()` (shifted epoch). -/
def toOrdinal (dt : Date) : Int :=
  let y : Int := if dt.month ≤ 2 then dt.year - 1 else dt.year
  let era : Int := Int.fdiv y 400
  let yoe : Int := y - era * 400
  let mp : Int := ((dt.month : Int) + 9) % 12
  let doy : Int := Int.fdiv (153 * mp + 2) 5 + (dt.day : Int) - 1
  let doe : Int := yoe * 365 + Int.fdiv yoe 4 - Int.fdiv yoe 100 + doy
  era * 146097 + doe - 719468

/-- Inverse of `toOrdinal` (civil-calendar algorithm), the counterpart of
Python's `date.fromordinal`. -/
def fromOrdinal (z0 : Int) : Date :=
  let z := z0 + 719468
  let era := Int.fdiv z 146097
  let doe := z - era * 146097
  let yoe := Int.fdiv (doe - Int.fdiv doe 1460 + Int.fdiv doe 36524 - Int.fdiv doe 146096) 365
  let y := yoe + era * 400
  let doy := doe - (365 * yoe + Int.fdiv yoe 4 - Int.fdiv yoe 100)
  let mp := Int.fdiv (5 * doy + 2) 153
  let d := doy - Int.fdiv (153 * mp + 2) 5 + 1
  let m := if mp < 10 then mp + 3 else mp - 9
  { year := if m ≤ 2 then y + 1 else y, month := m.toNat, day := d.toNat }

/-- Microseconds in a day: the resolution of Python `datetime`. -/
def usecPerDay : Nat := 86400000000

/-- A Python `datetime`: day ordinal plus microseconds within the day
(a valid value has `tod < usecPerDay`). -/
structure DateTime where
  ord : Int
  tod : Nat
deriving DecidableEq, Repr

/-- Value of a datetime on a single microsecond axis; Python's `datetime`
comparison is exactly comparison of these values. -/
def DateTime.val (d : DateTime) : Int := d.ord * (usecPerDay : Int) + (d.tod : Int)

/-- `datetime + timedelta(days=n)`: shifts the day ordinal, keeps the time of
day. -/
def DateTime.addDays (d : DateTime) (n : Int) : DateTime := ⟨d.ord + n, d.tod⟩

/-- Left-pad a number with zeros to a given width (Python's `%04d` / `%02d`). -/
def padNum (width n : Nat) : String :=
  let s := toString n
  String.mk (List.replicate (width - s.length) '0') ++ s

/-- `date.strftime("%Y-%m-%d")`.  Python zero-pads the year to 4 digits and
month/day to 2 digits; year is nonnegative in Python's supported range. -/
def formatDate (d : Date) : String :=
  padNum 4 d.year.toNat ++ "-" ++ padNum 2 d.month ++ "-" ++ padNum 2 d.day

/-- Decimal digit test. -/
def isDigit (c : Char) : Bool := '0' ≤ c && c ≤ '9'

/-- Parse a nonempty all-digit string as a `Nat`. -/
def parseNatDigits (s : List Char) : Option Nat :=
  if s.isEmpty then none
  else if s.all isDigit then
    some (s.foldl (fun acc c => acc * 10 + (c.toNat - 48)) 0)
  else none

/-- Split a character list on `'-'` (the separator of `"%Y-%m-%d"`). -/
def splitOnDash (s : List Char) : List (List Char) :=
  match s with
  | [] => [[]]
  | c :: rest =>
    if c = '-' then [] :: splitOnDash rest
    else
      match splitOnDash rest with
      | [] => [[c]]
      | h :: t => (c :: h) :: t

/-- `datetime.strptime(s, "%Y-%m-%d")`, returning the date (`none` models the
`ValueError` Python raises on a malformed string; field ranges are validated
as Python does). -/
def parseDate (s : String) : Option Date :=
  match splitOnDash s.data with
  | [ys, ms, ds] =>
    match parseNatDigits ys, parseNatDigits ms, parseNatDigits ds with
    | some y, some m, some d =>
      if 1 ≤ y ∧ y ≤ 9999 ∧ 1 ≤ m ∧ m ≤ 12 ∧ 1 ≤ d ∧ d ≤ daysInMonth (y : Int) m
      then some ⟨(y : Int), m, d⟩ else none
    | _, _, _ => none
  | _ => none

/-- One record of the subscriptions file: `{"expiry": ..., "plan": ...}`. -/
structure UserData where
  expiry : String
  plan : String
deriving DecidableEq, Repr

/-- The subscriptions file `{"users": {...}}`: a single top-level `users`
mapping from user-id string to record. -/
structure Subscriptions where
  users : String → Option UserData

/-- The file as initialized when absent: `{"users": {}}`. -/
def initialSubscriptions : Subscriptions := ⟨fun _ => none⟩

/-- `load_subscriptions()`: reads the file (the state), changing nothing. -/
def load_subscriptions (st : Subscriptions) : Subscriptions × Subscriptions := (st, st)

/-- `save_subscriptions(data)`: overwrites the file (the state) with `data`. -/
def save_subscriptions (data : Subscriptions) (_st : Subscriptions) : Unit × Subscriptions :=
  ((), data)

/-- `is_subscribed(user_id)` from `src/main.py:62-73`, with the configured
`ADMIN_ID` (possibly unset) and the current `datetime.now()` passed
explicitly.  Returns the boolean result (`none` models the `ValueError` from
`strptime` on an unparsable stored expiry) together with the file state.
Python's `get(str(user_id), {})` followed by the `if not user_data` falsiness
test is the `Option` lookup. -/
def is_subscribed (ADMIN_ID : Option Int) (now : DateTime) (user_id : Int)
    (st : Subscriptions) : Option Bool × Subscriptions :=
  if some user_id = ADMIN_ID then (some true, st)
  else
    let (subscriptions, st) := load_subscriptions st
    match subscriptions.users (toString user_id) with
    | none => (some false, st)
    | some user_data =>
      match parseDate user_data.expiry with
      | none => (none, st)
      | some d =>
        let expiry_date : DateTime := ⟨toOrdinal d, 0⟩
        (some (decide (expiry_date.val > now.val)), st)

/-- `add_subscription(user_id, days=30)` from `src/main.py:75-84`, with
`datetime.now()` passed explicitly.  Stores
`{"expiry": (now + timedelta(days=days)).strftime("%Y-%m-%d"),
  "plan": f"{days} days"}` under `str(user_id)` and saves the file. -/
def add_subscription (now : DateTime) (user_id : Int) (days : Int := 30)
    (st : Subscriptions) : Unit × Subscriptions :=
  let (subscriptions, st) := load_subscriptions st
  let expiry_date := now.addDays days
  let subscriptions : Subscriptions :=
    { subscriptions with
      users := fun k =>
        if k = toString user_id then
          some { expiry := formatDate (fromOrdinal expiry_date.ord),
                 plan := toString days ++ " days" }
        else subscriptions.users k }
  save_subscriptions subscriptions st

/-- The percentage and progress-bar values computed by one invocation of
`download_progress` (its transport side effect — the message edit — and the
wall-clock speed text are external effects, not modelled). -/
structure ProgressRender where
  percentage : ℚ
  progress_bar : String
deriving DecidableEq, Repr

/-- The arithmetic of `download_progress` from `src/main.py:123-142`:
`total_size = stream.filesize`, `bytes_downloaded = total_size -
bytes_remaining`, `percentage = (bytes_downloaded / total_size) * 100`,
`filled_length = int(20 * percentage // 100)`,
`progress_bar = '█' * filled_length + '-' * (20 - filled_length)`.
Python's float arithmetic is modelled exactly over `ℚ`; `//` on floats is
floor division, and `'c' * n` for `n ≤ 0` is the empty string (`Int.toNat`).
`none` models the `ZeroDivisionError` raised when `total_size` is zero. -/
def download_progress (total_size bytes_remaining : Int) : Option ProgressRender :=
  if total_size = 0 then none
  else
    let bytes_downloaded : Int := total_size - bytes_remaining
    let percentage : ℚ := ((bytes_downloaded : ℚ) / (total_size : ℚ)) * 100
    let progress_bar_length : Int := 20
    let filled_length : Int := Int.floor ((progress_bar_length : ℚ) * percentage / 100)
    let progress_bar : String :=
      String.mk (List.replicate filled_length.toNat '█' ++
        List.replicate (progress_bar_length - filled_length).toNat '-')
    some { percentage := percentage, progress_bar := progress_bar }

/-- Python `int(s)` on a string: optional sign followed by digits (`none`
models the `ValueError`; Python also tolerates surrounding whitespace and
underscores, which no claim exercises). -/
def parseInt (s : String) : Option Int :=
  match s.data with
  | '-' :: rest => (parseNatDigits rest).map (fun n => -(n : Int))
  | '+' :: rest => (parseNatDigits rest).map (fun n => (n : Int))
  | l => (parseNatDigits l).map (fun n => (n : Int))

/-- The distinct replies `admin_add_sub` can send, one constructor per
`reply_text` call site: "You don't have permission to use this command.",
"Usage: /addsub USER_ID DAYS", f"✅ Added {days} days subscription for user
{target_user_id}", and the `except` branch's f"Error: {str(e)}". -/
inductive AdminReply where
  | noPermission
  | usage
  | added (days target_user_id : Int)
  | errorMsg
deriving DecidableEq, Repr

/-- `admin_add_sub(update, context)` from `src/main.py:551-568`, with the
caller's `user_id`, the command arguments `context.args`, `ADMIN_ID` and
`datetime.now()` passed explicitly.  (The source has a stray one-space
under-indent on the `Usage:` reply line, an `IndentationError` in CPython;
the evident intent — both statements inside the `if` — is embedded.)
Extra arguments beyond the first two are ignored by the source; a
`ValueError` from either `int(...)` is caught by the `except` branch before
`add_subscription` runs. -/
def admin_add_sub (ADMIN_ID : Option Int) (now : DateTime) (user_id : Int)
    (args : List String) (st : Subscriptions) : AdminReply × Subscriptions :=
  if ¬ some user_id = ADMIN_ID then (.noPermission, st)
  else if args.length < 2 then (.usage, st)
  else
    match parseInt (args.getD 0 ""), parseInt (args.getD 1 "") with
    | some target_user_id, some days =>
      (.added days target_user_id, (add_subscription now target_user_id days st).2)
    | _, _ => (.errorMsg, st)

/-- A store holding one subscription for user id `2`, expiring 2024-01-31. -/
def sampleStore : Subscriptions :=
  ⟨fun k => if k = "2" then some ⟨"2024-01-31", "30 days"⟩ else none⟩

/-- Midnight of a later day exceeds any valid instant of an earlier-or-equal
day: comparing a midnight datetime with a valid datetime compares the dates. -/
lemma midnight_gt_iff (a b : Int) (t : Nat) (ht : t < usecPerDay) :
    a * (usecPerDay : Int) + ((0 : Nat) : Int) > b * (usecPerDay : Int) + (t : Int) ↔ b < a := by
  unfold usecPerDay at *
  omega

/-- C1: for a non-administrator user with a stored record whose expiry parses
as date `D`, `is_subscribed` returns `true` exactly when `D` is strictly
after the current date (`now.ord`), and `false` otherwise — in particular
`false` when `D` is the current date. -/
theorem is_subscribed_iff_expiry_after_today
    (A : Option Int) (now : DateTime) (u : Int) (st : Subscriptions)
    (ud : UserData) (D : Date)
    (hadmin : ¬ some u = A)
    (hrec : st.users (toString u) = some ud)
    (hparse : parseDate ud.expiry = some D)
    (htod : now.tod < usecPerDay) :
    (is_subscribed A now u st).1 = some (decide (now.ord < toOrdinal D)) := by
  unfold is_subscribed load_subscriptions
  rw [if_neg hadmin]
  simp only [hrec, hparse]
  congr 1
  rw [decide_eq_decide]
  unfold DateTime.val
  exact midnight_gt_iff (toOrdinal D) now.ord now.tod htod

/-- C1 witness: a user whose stored expiry `"2024-01-31"` equals the current
date is not entitled. -/
theorem is_subscribed_iff_expiry_after_today_witness :
    (is_subscribed (some 1) ⟨toOrdinal ⟨2024, 1, 31⟩, 0⟩ 2 sampleStore).1 = some false := by
  have h := is_subscribed_iff_expiry_after_today (some 1) ⟨toOrdinal ⟨2024, 1, 31⟩, 0⟩ 2
    sampleStore ⟨"2024-01-31", "30 days"⟩ ⟨2024, 1, 31⟩
    (by decide) (by decide) (by decide) (by decide)
  rw [h]
  decide

/-- C2: a grant of `N` days to user `u` stores expiry exactly
`now + N days` (formatted), overwriting any prior record, and a subsequent
grant of `M` days resets the expiry to `now₂ + M days` — durations do not
stack. -/
theorem add_subscription_sets_expiry_resets_on_regrant
    (now now2 : DateTime) (u N M : Int) (st : Subscriptions) :
    ((add_subscription now u N st).2.users (toString u) =
      some ⟨formatDate (fromOrdinal (now.ord + N)), toString N ++ " days"⟩)
    ∧ ((add_subscription now2 u M (add_subscription now u N st).2).2.users (toString u) =
      some ⟨formatDate (fromOrdinal (now2.ord + M)), toString M ++ " days"⟩) := by
  constructor <;>
    simp [add_subscription, save_subscriptions, load_subscriptions, DateTime.addDays]

/-- C5: granting 30 days on 2024-01-01 stores the expiry string
`"2024-01-31"`; the granted user is entitled on 2024-01-15 and no longer
entitled on 2024-02-01. -/
theorem grant_scenario_2024 :
    ((add_subscription ⟨toOrdinal ⟨2024, 1, 1⟩, 0⟩ 42 30 initialSubscriptions).2.users "42" =
      some ⟨"2024-01-31", "30 days"⟩)
    ∧ ((is_subscribed (some 1) ⟨toOrdinal ⟨2024, 1, 15⟩, 0⟩ 42
        (add_subscription ⟨toOrdinal ⟨2024, 1, 1⟩, 0⟩ 42 30 initialSubscriptions).2).1 = some true)
    ∧ ((is_subscribed (some 1) ⟨toOrdinal ⟨2024, 2, 1⟩, 0⟩ 42
        (add_subscription ⟨toOrdinal ⟨2024, 1, 1⟩, 0⟩ 42 30 initialSubscriptions).2).1 = some false) := by
  decide

/-- C6: the configured administrator is entitled in every store state, with
no record needed. -/
theorem is_subscribed_admin_always_true (a : Int) (now : DateTime) (st : Subscriptions) :
    is_subscribed (some a) now a st = (some true, st) := by
  unfold is_subscribed
  rw [if_pos rfl]

/-- C7: a non-administrator user with no stored record is not entitled. -/
theorem is_subscribed_no_record_false (A : Option Int) (now : DateTime) (u : Int)
    (st : Subscriptions) (hadmin : ¬ some u = A)
    (hrec : st.users (toString u) = none) :
    (is_subscribed A now u st).1 = some false := by
  unfold is_subscribed load_subscriptions
  rw [if_neg hadmin]
  simp [hrec]

/-- C7 witness: user `2` (admin is `1`) with the empty store is not
entitled. -/
theorem is_subscribed_no_record_false_witness :
    (is_subscribed (some 1) ⟨0, 0⟩ 2 initialSubscriptions).1 = some false :=
  is_subscribed_no_record_false (some 1) ⟨0, 0⟩ 2 initialSubscriptions (by decide) rfl

/-- C8: `is_subscribed` is read-only — it returns the subscription store
unchanged for every user and store state (it only ever calls
`load_subscriptions`, never `save_subscriptions`). -/
theorem is_subscribed_readonly (A : Option Int) (now : DateTime) (u : Int)
    (st : Subscriptions) :
    (is_subscribed A now u st).2 = st := by
  unfold is_subscribed load_subscriptions
  split
  · rfl
  · cases hu : st.users (toString u) with
    | none => simp [hu]
    | some ud => cases hp : parseDate ud.expiry <;> simp [hu, hp]

/-- C10: a grant to user `u` changes no other key of the `users` mapping —
every other user's record (presence, expiry and plan) is untouched; the
store's shape (a single top-level `users` mapping) is preserved by the
`Subscriptions` structure itself. -/
theorem add_subscription_frame (now : DateTime) (u N : Int) (st : Subscriptions)
    (k : String) (hk : k ≠ toString u) :
    (add_subscription now u N st).2.users k = st.users k := by
  simp [add_subscription, save_subscriptions, load_subscriptions, hk]

/-- C10 witness: granting to user `2` leaves key `"7"` of the empty store
absent. -/
theorem add_subscription_frame_witness :
    (add_subscription ⟨0, 0⟩ 2 30 initialSubscriptions).2.users "7" =
      initialSubscriptions.users "7" :=
  add_subscription_frame ⟨0, 0⟩ 2 30 initialSubscriptions "7" (by decide)

/-- The reported percentage is within `[0,100]` whenever the download is in a
sane state: positive total size and `0 ≤ bytes_remaining ≤ total_size`. -/
lemma progress_percentage_bounds (total remaining : Int)
    (h0 : 0 < total) (h1 : 0 ≤ remaining) (h2 : remaining ≤ total) :
    0 ≤ (((total - remaining : Int) : ℚ) / ((total : Int) : ℚ)) * 100 ∧
    (((total - remaining : Int) : ℚ) / ((total : Int) : ℚ)) * 100 ≤ 100 := by
  have htQ : (0 : ℚ) < ((total : Int) : ℚ) := by exact_mod_cast h0
  have hd0 : (0 : ℚ) ≤ ((total - remaining : Int) : ℚ) := by
    exact_mod_cast (by omega : (0 : Int) ≤ total - remaining)
  have hdt : ((total - remaining : Int) : ℚ) ≤ ((total : Int) : ℚ) := by
    exact_mod_cast (by omega : total - remaining ≤ total)
  constructor
  · exact mul_nonneg (div_nonneg hd0 htQ.le) (by norm_num)
  · have h := (div_le_one htQ).2 hdt
    nlinarith

/-- C3 counterexample: the claim quantifies over any total size and any
bytes-remaining value, but at total size `0` the code's
`(bytes_downloaded / total_size) * 100` raises `ZeroDivisionError` (modelled
`none`), and at total `1`, remaining `2` the computed percentage is `-100`,
outside `[0,100]`. -/
theorem download_progress_division_by_zero_cex :
    download_progress 0 0 = none ∧
    (download_progress 1 2).map ProgressRender.percentage = some (-100) ∧
    ¬ (0 : ℚ) ≤ -100 := by
  refine ⟨by simp [download_progress], ?_, by norm_num⟩
  simp [download_progress]

/-- C3 (amended): whenever the total size is nonzero (in particular
positive) and `0 ≤ bytes_remaining ≤ total_size`, `download_progress`
raises no `ZeroDivisionError` and its percentage lies in `[0,100]`. -/
theorem download_progress_in_range (total remaining : Int)
    (h0 : 0 < total) (h1 : 0 ≤ remaining) (h2 : remaining ≤ total) :
    ∃ r, download_progress total remaining = some r ∧
      0 ≤ r.percentage ∧ r.percentage ≤ 100 := by
  unfold download_progress
  rw [if_neg (by omega)]
  refine ⟨_, rfl, ?_, ?_⟩ <;> dsimp only
  · exact (progress_percentage_bounds total remaining h0 h1 h2).1
  · exact (progress_percentage_bounds total remaining h0 h1 h2).2

/-- C3 witness: at total `4`, remaining `1`, the percentage is defined and in
range. -/
theorem download_progress_in_range_witness :
    ∃ r, download_progress 4 1 = some r ∧ 0 ≤ r.percentage ∧ r.percentage ≤ 100 :=
  download_progress_in_range 4 1 (by decide) (by decide) (by decide)

/-- C9 counterexample: the claim quantifies over every invocation, but at
total `1`, remaining `3` the bar is 60 dashes — not 20 slots (the filled
count `int(20 * percentage // 100)` is `-40` and `'-' * (20 - (-40))` pads
60). -/
theorem download_progress_bar_length_cex :
    (download_progress 1 3).map ProgressRender.progress_bar =
      some (String.mk (List.replicate 60 '-')) ∧
    (String.mk (List.replicate 60 '-')).length ≠ 20 := by
  constructor
  · simp [download_progress]
    norm_num
    decide
  · decide

/-- C9 (amended): under the sane-input precondition (positive total,
`0 ≤ remaining ≤ total`), the bar has exactly 20 slots: the filled slots
number `⌊20 · percentage / 100⌋` and the remaining slots are the empty
(`'-'`) ones. -/
theorem download_progress_bar (total remaining : Int)
    (h0 : 0 < total) (h1 : 0 ≤ remaining) (h2 : remaining ≤ total) :
    ∃ r, download_progress total remaining = some r ∧
      r.progress_bar.data =
        List.replicate (Int.floor (20 * r.percentage / 100)).toNat '█' ++
          List.replicate (20 - (Int.floor (20 * r.percentage / 100)).toNat) '-' ∧
      r.progress_bar.length = 20 := by
  obtain ⟨hp0, hp100⟩ := progress_percentage_bounds total remaining h0 h1 h2
  set p : ℚ := (((total - remaining : Int) : ℚ) / ((total : Int) : ℚ)) * 100 with hp
  have hcast : ((20 : Int) : ℚ) = (20 : ℚ) := by norm_num
  have hx0 : (0 : ℚ) ≤ (20 : ℚ) * p / 100 := by
    apply div_nonneg _ (by norm_num)
    exact mul_nonneg (by norm_num) hp0
  have hx20 : (20 : ℚ) * p / 100 ≤ (20 : ℚ) := by
    rw [div_le_iff₀ (by norm_num : (0 : ℚ) < 100)]
    nlinarith
  have hf0 : 0 ≤ Int.floor ((20 : ℚ) * p / 100) := Int.floor_nonneg.2 hx0
  have hf20 : Int.floor ((20 : ℚ) * p / 100) ≤ 20 := by
    have h := Int.floor_le_floor hx20
    simpa using h
  have hcount : ((20 : Int) - Int.floor ((20 : ℚ) * p / 100)).toNat =
      20 - (Int.floor ((20 : ℚ) * p / 100)).toNat := by omega
  unfold download_progress
  rw [if_neg (by omega)]
  refine ⟨_, rfl, ?_, ?_⟩ <;> dsimp only
  · rw [hcast, ← hp, hcount]
  · rw [hcast, ← hp]
    simp only [String.length, List.length_append, List.length_replicate]
    omega

/-- C9 witness: at total `5`, remaining `2`, the bar is well-formed with 20
slots. -/
theorem download_progress_bar_witness :
    ∃ r, download_progress 5 2 = some r ∧
      r.progress_bar.data =
        List.replicate (Int.floor (20 * r.percentage / 100)).toNat '█' ++
          List.replicate (20 - (Int.floor (20 * r.percentage / 100)).toNat) '-' ∧
      r.progress_bar.length = 20 :=
  download_progress_bar 5 2 (by decide) (by decide) (by decide)

/-- C4 counterexample: an administrator `/addsub` with a non-numeric first
argument (and the right argument count) is answered by the `except` branch's
generic error message, not by the usage message. -/
theorem admin_add_sub_nonnumeric_reply_cex :
    (admin_add_sub (some 1) ⟨0, 0⟩ 1 ["abc", "5"] initialSubscriptions).1 =
      AdminReply.errorMsg ∧
    AdminReply.errorMsg ≠ AdminReply.usage := by
  decide

/-- C4 (amended): for the administrator, a call with fewer than two
arguments is answered with the usage message and leaves the store unchanged;
a call with at least two arguments where either of the first two is
non-numeric is answered with the generic error message (not the usage
message) and also leaves the store unchanged. -/
theorem admin_add_sub_malformed (A : Option Int) (now : DateTime) (u : Int)
    (args : List String) (st : Subscriptions) (hadmin : some u = A) :
    (args.length < 2 → admin_add_sub A now u args st = (.usage, st)) ∧
    (2 ≤ args.length →
      (parseInt (args.getD 0 "") = none ∨ parseInt (args.getD 1 "") = none) →
      admin_add_sub A now u args st = (.errorMsg, st)) := by
  unfold admin_add_sub
  rw [if_neg (not_not_intro hadmin)]
  constructor
  · intro h
    rw [if_pos h]
  · intro hlen hp
    rw [if_neg (by omega)]
    rcases hp with hp | hp
    · rw [hp]
    · rcases hq : parseInt (args.getD 0 "") with _ | t0
      · rfl
      · rw [hp]

/-- C4 witness: with admin id `1`, `/addsub 7` gets the usage reply and
`/addsub abc 5` gets the error reply; the empty store is unchanged in
both. -/
theorem admin_add_sub_malformed_witness :
    admin_add_sub (some 1) ⟨0, 0⟩ 1 ["7"] initialSubscriptions =
      (.usage, initialSubscriptions) ∧
    admin_add_sub (some 1) ⟨0, 0⟩ 1 ["abc", "5"] initialSubscriptions =
      (.errorMsg, initialSubscriptions) := by
  constructor
  · exact (admin_add_sub_malformed (some 1) ⟨0, 0⟩ 1 ["7"] initialSubscriptions rfl).1
      (by decide)
  · exact (admin_add_sub_malformed (some 1) ⟨0, 0⟩ 1 ["abc", "5"] initialSubscriptions rfl).2
      (by decide) (Or.inl (by decide))
example : parseInt "-17" = some (-17) ∧ parseInt "abc" = none := by decide
example : (download_progress 8 2).map ProgressRender.percentage = some 75 := by
  simp [download_progress]
  norm_num
